import Mathlib

/-!
Verification development for the live market-data subscription manager of a
trading dashboard (`src/views/dashboard.rs`).  The GUI plumbing (pane grid,
buttons, rendering) is out of scope; the embedding covers the state fields and
handlers that manage the two websocket command handles (`ws_book`, `ws_trade`),
the recorded trading pair (`textbox_pair`), the market text boxes, and the
event router `DashboardView::ws`.

Modelling conventions:
* A Rust panic (a failed `unwrap`/`expect`) is `none`; a normal return is
  `some`.  Functions whose Rust counterparts cannot panic are total.
* A `tokio::sync::mpsc::UnboundedSender` is modelled by `Sender`, carrying the
  one bit the sender can observe: whether the receiver is still alive.
  `send` succeeds exactly when the receiver is alive.
* Commands sent through a channel are collected into an explicit list of
  `RetargetCmd` values (the only commands the dashboard sends are
  `book::Message::NewPair` / `trades::Message::NewPair`).
* Rust `f64`/`f32` values are modelled as exact rationals (ℚ): no claim in
  scope depends on floating-point rounding, only on presence/absence of data
  and on which strings and commands are produced.  `f64::round` is modelled by
  `round` (half-up), which agrees on the non-negative values used here, and
  number formatting is abstracted by `toString` on ℚ.
* `str::to_lowercase` and `str::ends_with` are modelled character-wise; the
  subscription keys handled by this program are ASCII symbols, where the
  character-wise model agrees with Rust.
-/

/-- Model of Rust `str::to_lowercase`: lower-case every character. -/
def toLowercase (s : String) : String :=
  String.mk (s.data.map Char.toLower)

/-- Model of Rust `str::ends_with`: the pattern is a suffix of the string. -/
def rendsWith (s pat : String) : Bool :=
  List.isSuffixOf pat.data s.data

/-- Model of an `mpsc::UnboundedSender` command handle.  The only observable
the sender side has is whether the receiving controller still exists; `send`
on a channel whose receiver was dropped returns `Err`. -/
structure Sender where
  alive : Bool
deriving DecidableEq

/-- Result of `UnboundedSender::send`: `ok` if the receiver is alive, `error`
(the `SendError` carrying back the message) otherwise. -/
def sendTo (h : Sender) : Except Unit Unit :=
  if h.alive then Except.ok () else Except.error ()

/-- The independently managed stream channels (spec §3 StreamKind). -/
inductive StreamKind where
  | book
  | trade
  | price
  | user
deriving DecidableEq, BEq

/-- A retarget command observed on a channel: `book::Message::NewPair key` or
`trades::Message::NewPair key`, tagged with the channel it was sent on. -/
structure RetargetCmd where
  kind : StreamKind
  key : String
deriving DecidableEq, BEq

/-- A decoded price-ticker payload: the originating pair name and the price.
The price value is opaque to the router (it is passed through to the chart);
it is modelled as a rational. -/
structure PricePayload where
  name : String
  price : Rat
deriving DecidableEq

/-- Model of `crate::ws::WsEvent`: connection lifecycle events, generic over
the handle type delivered on `Connected` and the payload type. -/
inductive WsEvent (H P : Type) where
  | Connected : H → WsEvent H P
  | Disconnected : WsEvent H P
  | Message : P → WsEvent H P
deriving DecidableEq

/-- Model of `crate::ws::WsMessage`: one event from one of the four stream
kinds.  `Price` events carry no stored handle (the handler ignores it);
`Book`/`Trade` events carry the command sender stored by the router; `User`
events are ignored wholesale. -/
inductive WsMessage where
  | Price : WsEvent Unit PricePayload → WsMessage
  | Book : WsEvent Sender Unit → WsMessage
  | Trade : WsEvent Sender Unit → WsMessage
  | User : WsEvent Unit Unit → WsMessage
deriving DecidableEq

/-- A spot balance entry from `AppData` (only the fields the dashboard
handlers read). -/
structure Balance where
  asset : String
  free : Rat
deriving DecidableEq

/-- The slice of `AppData` read by the modelled handlers: the balance list and
the optional price map (an association list keyed by pair name). -/
structure AppData where
  balances : List Balance
  prices : Option (List (String × Rat))
deriving DecidableEq

/-- The modelled fields of `DashboardView`: the market text boxes, the recorded
pair, the stored websocket command handles, and the chart's data buffer (the
consumer of forwarded price payloads).  Pane/focus/filter/calculator state is
GUI plumbing and out of scope. -/
structure DashboardView where
  textbox_price : String
  textbox_amount : String
  textbox_pair : String
  ws_book : Option Sender
  ws_trade : Option Sender
  chart : List Rat
deriving DecidableEq

/-- Model of `DashboardView::new()`: empty text boxes, recorded pair `"BTCUSDT"`, no
live handles, empty chart. -/
def DashboardView.new : DashboardView where
  textbox_price := ""
  textbox_amount := ""
  textbox_pair := "BTCUSDT"
  ws_book := none
  ws_trade := none
  chart := []

/-- Model of `DashboardView::update_pair`: lower-case the recorded pair; if a book
handle is stored, send `NewPair` through it and `unwrap` the result (panic on
a dropped receiver); then likewise for the trade handle.  Returns the list of
commands sent, or `none` on panic. -/
def DashboardView.update_pair (s : DashboardView) : Option (List RetargetCmd) :=
  let lower_pair := toLowercase s.textbox_pair
  let bookStep : Option (List RetargetCmd) :=
    match s.ws_book with
    | some book_ws =>
      match sendTo book_ws with
      | Except.ok _ => some [⟨StreamKind.book, lower_pair⟩]
      | Except.error _ => none
    | none => some []
  match bookStep with
  | none => none
  | some sent =>
    match s.ws_trade with
    | some ws_trade =>
      match sendTo ws_trade with
      | Except.ok _ => some (sent ++ [⟨StreamKind.trade, lower_pair⟩])
      | Except.error _ => none
    | none => some sent

/-- The pair written to `textbox_pair` by the `AssetSelected` handler: append
`"USDT"` unless the asset already ends with (case-sensitively) `"USDT"`,
`"BTC"` or `"ETH"`. -/
def assetPair (a : String) : String :=
  if !(rendsWith a "USDT") && !(rendsWith a "BTC") && !(rendsWith a "ETH") then
    a ++ "USDT"
  else
    a

/-- The modelled subset of `DashboardMessage`.  `Gui` stands for the
pane-management and filter messages (`Clicked`, `Dragged`, `Resized`,
`Maximize`, `Restore`, `Close`, `WatchlistFilterInput`,
`ApplyWatchlistFilter`, `Calculator`), none of which touches the modelled
fields or sends websocket commands.  `BuyPressed`/`SellPressed` are omitted:
they issue REST trade commands, never websocket retargets, and do not modify
the modelled state. -/
inductive DashboardMessage where
  | MarketQuoteChanged : String → DashboardMessage
  | MarketAmtChanged : String → DashboardMessage
  | MarketPairChanged : String → DashboardMessage
  | MarketPairSet : DashboardMessage
  | PriceInc : Rat → DashboardMessage
  | AssetSelected : String → DashboardMessage
  | QtySet : Rat → DashboardMessage
  | Gui : DashboardMessage
deriving DecidableEq

/-- Model of `DashboardView::update` restricted to the modelled messages.  Returns the
new state and the list of websocket commands sent, or `none` when the Rust
handler panics (`unwrap` on a missing USDT balance, `expect` on a missing
price map or price entry, `unwrap` on a failed channel send). -/
def DashboardView.update (s : DashboardView) (msg : DashboardMessage)
    (data : AppData) : Option (DashboardView × List RetargetCmd) :=
  match msg with
  | DashboardMessage.MarketPairChanged np =>
    some ({ s with textbox_pair := np }, [])
  | DashboardMessage.MarketQuoteChanged nm =>
    some ({ s with textbox_price := nm }, [])
  | DashboardMessage.MarketAmtChanged nm =>
    some ({ s with textbox_amount := nm }, [])
  | DashboardMessage.AssetSelected a =>
    let s' : DashboardView := { s with textbox_pair := assetPair a }
    match s'.update_pair with
    | some cmds => some (s', cmds)
    | none => none
  | DashboardMessage.QtySet f =>
    match data.balances.find? (fun b => b.asset == "USDT") with
    | some b => some ({ s with textbox_amount := toString (b.free * f) }, [])
    | none => none
  | DashboardMessage.PriceInc inc =>
    match data.prices with
    | some prices =>
      match prices.lookup s.textbox_pair with
      | some price =>
        let rounded : ℚ := ((round (price * (1 + inc / 100) * 100) : ℤ) : ℚ) / 100
        some ({ s with textbox_price := toString rounded }, [])
      | none => none
    | none => none
  | DashboardMessage.MarketPairSet =>
    match s.update_pair with
    | some cmds => some (s, cmds)
    | none => none
  | DashboardMessage.Gui => some (s, [])

/-- Model of `DashboardView::ws`: process one websocket event.  Returns the new state
and the list of payloads delivered to the consumer (the chart) — at most one.
A price payload is forwarded iff its name equals the recorded pair (raw string
equality); `Book`/`Trade` `Connected`/`Disconnected` store/clear the command
handle and their `Message` payloads are ignored; `User` events are ignored. -/
def DashboardView.ws (s : DashboardView) (m : WsMessage) :
    DashboardView × List PricePayload :=
  match m with
  | WsMessage.Price (WsEvent.Connected _) => (s, [])
  | WsMessage.Price WsEvent.Disconnected => (s, [])
  | WsMessage.Price (WsEvent.Message p) =>
    if p.name = s.textbox_pair then
      ({ s with chart := s.chart ++ [p.price] }, [p])
    else
      (s, [])
  | WsMessage.Book (WsEvent.Connected sender) => ({ s with ws_book := some sender }, [])
  | WsMessage.Book WsEvent.Disconnected => ({ s with ws_book := none }, [])
  | WsMessage.Book (WsEvent.Message _) => (s, [])
  | WsMessage.Trade (WsEvent.Connected sender) => ({ s with ws_trade := some sender }, [])
  | WsMessage.Trade WsEvent.Disconnected => ({ s with ws_trade := none }, [])
  | WsMessage.Trade (WsEvent.Message _) => (s, [])
  | WsMessage.User _ => (s, [])

/-- Process a whole event sequence through `DashboardView::ws`, collecting all
payloads delivered to the consumer in order. -/
def DashboardView.wsRun (s : DashboardView) :
    List WsMessage → DashboardView × List PricePayload
  | [] => (s, [])
  | m :: ms =>
    let step := s.ws m
    let rest := step.1.wsRun ms
    (rest.1, step.2 ++ rest.2)

/-- Model of `DashboardView::subscription`: the keys under which the trade and book
stream connections are opened — the lower-cased recorded pair for both.  The
`window::frames` ticker in the Rust batch is GUI plumbing and carries no
subscription key. -/
def DashboardView.subscriptionTargets (s : DashboardView) :
    List (StreamKind × String) :=
  [(StreamKind.trade, toLowercase s.textbox_pair),
   (StreamKind.book, toLowercase s.textbox_pair)]

/-- The payloads a single event contributes to the consumer when the recorded
pair is `pair`: a price message matching `pair`, and nothing otherwise. -/
def priceDelivery (pair : String) (m : WsMessage) : List PricePayload :=
  match m with
  | WsMessage.Price (WsEvent.Message p) => if p.name = pair then [p] else []
  | _ => []

/-- A dashboard state with both websocket handles stored and their receivers
alive (used to exercise the retarget paths on concrete inputs). -/
def dashLive : DashboardView :=
  { DashboardView.new with ws_book := some ⟨true⟩, ws_trade := some ⟨true⟩ }

/-- The state reached from `dashLive` by `AssetSelected "btc"`. -/
def dashBtc : DashboardView :=
  { dashLive with textbox_pair := "btcUSDT" }

/-- A state whose recorded pair is already the lower-cased key the connections
are opened under. -/
def dashLower : DashboardView :=
  { DashboardView.new with textbox_pair := "btcusdt" }

/-- App data with no balances and no price map. -/
def emptyData : AppData :=
  { balances := [], prices := none }

/-- C1: the claim says a retarget sent through a stored stream handle whose
underlying controller has gone away (receiver dropped) completes as a safe
no-op.  The code instead calls `.unwrap()` on the failed `send`, so
`update_pair` panics: evaluating the model at a state whose stored book
(resp. trade) handle has a dropped receiver yields `none` (a panic), not a
no-op. -/
theorem C1_stale_handle_send_panics :
    ({ DashboardView.new with ws_book := some ⟨false⟩ } : DashboardView).update_pair = none
    ∧ ({ DashboardView.new with ws_trade := some ⟨false⟩ } : DashboardView).update_pair = none :=
  ⟨rfl, rfl⟩

/-- C2: the claim says `QtySet` and `PriceInc` treat a missing USDT balance /
missing price entry as a defined no-op or error.  The code instead `unwrap`s
(`expect`s) the lookups: with no USDT balance `QtySet` panics, and `PriceInc`
panics both when the price map is absent and when it lacks the current pair. -/
theorem C2_missing_data_panics :
    DashboardView.update DashboardView.new (DashboardMessage.QtySet (1 / 2)) emptyData = none
    ∧ DashboardView.update DashboardView.new (DashboardMessage.PriceInc 1) emptyData = none
    ∧ DashboardView.update DashboardView.new (DashboardMessage.PriceInc 1)
        { balances := [⟨"USDT", 100⟩], prices := some [("ethusdt", 2)] } = none :=
  ⟨rfl, rfl, rfl⟩

/-- C3 (counterexample): two consecutive `AssetSelected "btc"` updates from a
state with both handles live.  The second call's normalized key `"btcusdt"`
equals the recorded key's normalization, yet both calls send a book retarget,
so two identical `set_pair` calls issue two retargets for the book kind —
refuting "at most one retarget command per stream kind". -/
theorem C3_counterexample :
    DashboardView.update dashLive (DashboardMessage.AssetSelected "btc") emptyData
      = some (dashBtc, [⟨StreamKind.book, "btcusdt"⟩, ⟨StreamKind.trade, "btcusdt"⟩])
    ∧ DashboardView.update dashBtc (DashboardMessage.AssetSelected "btc") emptyData
      = some (dashBtc, [⟨StreamKind.book, "btcusdt"⟩, ⟨StreamKind.trade, "btcusdt"⟩])
    ∧ toLowercase dashBtc.textbox_pair = "btcusdt"
    ∧ 1 < List.countP (fun c => c.kind == StreamKind.book)
        ([⟨StreamKind.book, "btcusdt"⟩, ⟨StreamKind.trade, "btcusdt"⟩]
          ++ [(⟨StreamKind.book, "btcusdt"⟩ : RetargetCmd), ⟨StreamKind.trade, "btcusdt"⟩]) := by
  exact ⟨by decide, by decide, by decide, by decide⟩

/-- C3 (amended): `set_pair` performs no comparison with the currently
recorded key: every `AssetSelected` update from a state with both handles
live sends exactly one retarget per kind, keyed by the lower-cased new pair,
and the resulting state is unchanged by a repeat of the same call except that
the same two retargets are sent again. -/
theorem C3_amended_retarget_every_call (s : DashboardView) (a : String) (d : AppData)
    (hb : s.ws_book = some ⟨true⟩) (ht : s.ws_trade = some ⟨true⟩) :
    DashboardView.update s (DashboardMessage.AssetSelected a) d
      = some ({ s with textbox_pair := assetPair a },
          [⟨StreamKind.book, toLowercase (assetPair a)⟩,
           ⟨StreamKind.trade, toLowercase (assetPair a)⟩])
    ∧ DashboardView.update { s with textbox_pair := assetPair a }
        (DashboardMessage.AssetSelected a) d
      = some ({ s with textbox_pair := assetPair a },
          [⟨StreamKind.book, toLowercase (assetPair a)⟩,
           ⟨StreamKind.trade, toLowercase (assetPair a)⟩]) := by
  constructor <;> simp [DashboardView.update, DashboardView.update_pair, sendTo, hb, ht]

/-- C3 (witness): the amended theorem applied at `dashLive` and asset
`"eth"`. -/
theorem C3_amended_witness :
    dashLive.ws_book = some ⟨true⟩ ∧ dashLive.ws_trade = some ⟨true⟩
    ∧ DashboardView.update dashLive (DashboardMessage.AssetSelected "eth") emptyData
      = some ({ dashLive with textbox_pair := assetPair "eth" },
          [⟨StreamKind.book, toLowercase (assetPair "eth")⟩,
           ⟨StreamKind.trade, toLowercase (assetPair "eth")⟩]) :=
  ⟨rfl, rfl, (C3_amended_retarget_every_call dashLive "eth" emptyData rfl rfl).1⟩

/-- C4: a price `Message` payload is forwarded to the chart exactly when its
originating key equals the recorded pair; payloads tagged with any other key
are dropped and leave the state unchanged. -/
theorem C4_price_gated_by_recorded_key (s : DashboardView) (p : PricePayload) :
    ((s.ws (WsMessage.Price (WsEvent.Message p))).2 = [p] ↔ p.name = s.textbox_pair)
    ∧ (p.name ≠ s.textbox_pair →
        (s.ws (WsMessage.Price (WsEvent.Message p))).2 = []
        ∧ (s.ws (WsMessage.Price (WsEvent.Message p))).1 = s) := by
  by_cases h : p.name = s.textbox_pair
  · simp [DashboardView.ws, h]
  · simp [DashboardView.ws, h]

/-- C4 (witness): at the initial state (recorded pair `"BTCUSDT"`), a payload
tagged `"ethusdt"` is dropped. -/
theorem C4_witness :
    ("ethusdt" : String) ≠ DashboardView.new.textbox_pair
    ∧ (DashboardView.new.ws (WsMessage.Price (WsEvent.Message ⟨"ethusdt", 1⟩))).2 = [] :=
  ⟨by decide,
   ((C4_price_gated_by_recorded_key DashboardView.new ⟨"ethusdt", 1⟩).2 (by decide)).1⟩

/-- C5 (counterexample): from a state whose recorded pair is `"btcusdt"`, the
event sequence [price `Disconnected`, price `Message "btcusdt"`] delivers the
payload to the consumer even though no `Connected` for the price kind was
processed in between: the router does not gate delivery on connection
state. -/
theorem C5_counterexample :
    (dashLower.wsRun [WsMessage.Price WsEvent.Disconnected,
        WsMessage.Price (WsEvent.Message ⟨"btcusdt", 7⟩)]).2
      = [⟨"btcusdt", 7⟩] := rfl

/-- Processing one websocket event never changes the recorded pair. -/
theorem ws_textbox_pair_eq (s : DashboardView) (m : WsMessage) :
    (s.ws m).1.textbox_pair = s.textbox_pair := by
  cases m with
  | Price e =>
    cases e with
    | Connected h => rfl
    | Disconnected => rfl
    | Message p => by_cases h : p.name = s.textbox_pair <;> simp [DashboardView.ws, h]
  | Book e => cases e <;> rfl
  | Trade e => cases e <;> rfl
  | User e => rfl

/-- The payloads one event delivers to the consumer depend only on the
recorded pair: a matching price message, and nothing else. -/
theorem ws_delivery_eq (s : DashboardView) (m : WsMessage) :
    (s.ws m).2 = priceDelivery s.textbox_pair m := by
  cases m with
  | Price e =>
    cases e with
    | Connected h => rfl
    | Disconnected => rfl
    | Message p =>
      by_cases h : p.name = s.textbox_pair <;> simp [DashboardView.ws, priceDelivery, h]
  | Book e => cases e <;> rfl
  | Trade e => cases e <;> rfl
  | User e => rfl

/-- C5 (amended): the router performs no connection-state gating at all.
Over any event sequence, the payloads delivered to the consumer are exactly
the price messages whose key equals the recorded pair — irrespective of any
`Connected`/`Disconnected` events — and `Book`/`Trade` payloads are never
delivered (by definition of `priceDelivery`).  The recorded pair is invariant
under event processing. -/
theorem C5_amended_no_connection_gating (s : DashboardView) (evs : List WsMessage) :
    (s.wsRun evs).2 = evs.flatMap (priceDelivery s.textbox_pair)
    ∧ (s.wsRun evs).1.textbox_pair = s.textbox_pair := by
  induction evs generalizing s with
  | nil => exact ⟨rfl, rfl⟩
  | cons m ms ih =>
    have h1 := ws_delivery_eq s m
    have h2 := ws_textbox_pair_eq s m
    have h3 := ih (s.ws m).1
    constructor
    · simp [DashboardView.wsRun, List.flatMap_cons, h1, h3.1, h2]
    · simp [DashboardView.wsRun, h3.2, h2]

/-- C6: `AssetSelected "btc"` appends `"USDT"` (the asset has no USDT/BTC/ETH
suffix), records `"btcUSDT"`, and sends the lower-cased key `"btcusdt"` to
both controllers. -/
theorem C6_btc_normalizes_to_btcusdt (s : DashboardView) (d : AppData)
    (hb : s.ws_book = some ⟨true⟩) (ht : s.ws_trade = some ⟨true⟩) :
    DashboardView.update s (DashboardMessage.AssetSelected "btc") d
      = some ({ s with textbox_pair := "btcUSDT" },
          [⟨StreamKind.book, "btcusdt"⟩, ⟨StreamKind.trade, "btcusdt"⟩])
    ∧ assetPair "btc" = "btc" ++ "USDT"
    ∧ toLowercase ("btc" ++ "USDT") = "btcusdt" := by
  have ha : assetPair "btc" = "btcUSDT" := by decide
  have hl : toLowercase "btcUSDT" = "btcusdt" := by decide
  refine ⟨?_, by decide, by decide⟩
  simp [DashboardView.update, DashboardView.update_pair, sendTo, hb, ht, ha, hl]

/-- C6 (witness): the theorem applied at `dashLive`. -/
theorem C6_witness :
    dashLive.ws_book = some ⟨true⟩ ∧ dashLive.ws_trade = some ⟨true⟩
    ∧ DashboardView.update dashLive (DashboardMessage.AssetSelected "btc") emptyData
      = some ({ dashLive with textbox_pair := "btcUSDT" },
          [⟨StreamKind.book, "btcusdt"⟩, ⟨StreamKind.trade, "btcusdt"⟩]) :=
  ⟨rfl, rfl, (C6_btc_normalizes_to_btcusdt dashLive emptyData rfl rfl).1⟩

/-- C7 (counterexample): at the initial state the recorded pair is
`"BTCUSDT"`; the connections are opened under the lower-cased key
`"btcusdt"`, and a payload originating from that very key normalizes equal to
the recorded pair, yet the forwarding check drops it — so the key-match check
is not "exact equality after lower-casing both sides". -/
theorem C7_counterexample :
    toLowercase "btcusdt" = toLowercase DashboardView.new.textbox_pair
    ∧ DashboardView.new.subscriptionTargets
      = [(StreamKind.trade, "btcusdt"), (StreamKind.book, "btcusdt")]
    ∧ (DashboardView.new.ws (WsMessage.Price (WsEvent.Message ⟨"btcusdt", 3⟩))).2 = []
    ∧ ("btcusdt" : String) ≠ DashboardView.new.textbox_pair :=
  ⟨by decide, by decide, by decide, by decide⟩

/-- C7 (amended): connections are opened under the lower-cased recorded pair
and every retarget key is the lower-cased recorded pair, but the
payload-forwarding check compares the payload key with the recorded pair by
raw exact string equality, without normalizing either side. -/
theorem C7_amended_raw_forwarding_check (s : DashboardView) (p : PricePayload) :
    (∀ c ∈ s.update_pair.getD [], c.key = toLowercase s.textbox_pair)
    ∧ (∀ t ∈ s.subscriptionTargets, t.2 = toLowercase s.textbox_pair)
    ∧ ((s.ws (WsMessage.Price (WsEvent.Message p))).2 = [p] ↔ p.name = s.textbox_pair) := by
  refine ⟨?_, ?_, ?_⟩
  · intro c hc
    rcases s with ⟨p1, p2, pair, wb, wt, ch⟩
    rcases wb with _ | ⟨_ | _⟩ <;> rcases wt with _ | ⟨_ | _⟩ <;>
      simp [DashboardView.update_pair, sendTo] at hc <;>
      rcases hc with rfl | rfl <;> rfl
  · intro t ht
    simp [DashboardView.subscriptionTargets] at ht
    rcases ht with rfl | rfl <;> rfl
  · by_cases h : p.name = s.textbox_pair <;> simp [DashboardView.ws, h]

/-- C7 (witness): at `dashLive` (recorded pair `"BTCUSDT"`), a payload tagged
with the raw recorded pair is forwarded. -/
theorem C7_amended_witness :
    (dashLive.ws (WsMessage.Price (WsEvent.Message ⟨"BTCUSDT", 3⟩))).2
      = [⟨"BTCUSDT", 3⟩] :=
  (C7_amended_raw_forwarding_check dashLive ⟨"BTCUSDT", 3⟩).2.2.mpr (by decide)

/-- C8: a retarget issued while a stream kind's stored sender is `None` is a
silent no-op for that kind: no command is sent on it and `update_pair` does
not fail, while a live handle of the other kind is still served. -/
theorem C8_absent_handle_silent_noop (s : DashboardView) :
    (s.ws_book = none → s.ws_trade = none → s.update_pair = some [])
    ∧ (s.ws_book = none → s.ws_trade = some ⟨true⟩ →
        s.update_pair = some [⟨StreamKind.trade, toLowercase s.textbox_pair⟩])
    ∧ (s.ws_book = some ⟨true⟩ → s.ws_trade = none →
        s.update_pair = some [⟨StreamKind.book, toLowercase s.textbox_pair⟩]) := by
  refine ⟨?_, ?_, ?_⟩ <;> intro h1 h2 <;>
    simp [DashboardView.update_pair, sendTo, h1, h2]

/-- C8 (witness): at the initial state (no stored handles) `update_pair` is a
silent no-op. -/
theorem C8_witness :
    DashboardView.new.ws_book = none ∧ DashboardView.new.ws_trade = none
    ∧ DashboardView.new.update_pair = some [] :=
  ⟨rfl, rfl, (C8_absent_handle_silent_noop DashboardView.new).1 rfl rfl⟩

/-- C9: `MarketPairChanged np` replaces the recorded pair with `np`, sends no
retarget, and leaves both stored handles unchanged; among the modelled
handlers, only `MarketPairSet` and `AssetSelected` can produce a non-empty
command list. -/
theorem C9_pair_changed_frame (s : DashboardView) (np : String) (d : AppData) :
    DashboardView.update s (DashboardMessage.MarketPairChanged np) d
      = some ({ s with textbox_pair := np }, [])
    ∧ ({ s with textbox_pair := np } : DashboardView).ws_book = s.ws_book
    ∧ ({ s with textbox_pair := np } : DashboardView).ws_trade = s.ws_trade
    ∧ (∀ msg s2 cmds, DashboardView.update s msg d = some (s2, cmds) → cmds ≠ [] →
        msg = DashboardMessage.MarketPairSet
        ∨ ∃ a, msg = DashboardMessage.AssetSelected a) := by
  refine ⟨rfl, rfl, rfl, ?_⟩
  intro msg s2 cmds hupd hne
  cases msg with
  | MarketQuoteChanged nm =>
    simp [DashboardView.update] at hupd
    exact absurd hupd.2 hne
  | MarketAmtChanged nm =>
    simp [DashboardView.update] at hupd
    exact absurd hupd.2 hne
  | MarketPairChanged nm =>
    simp [DashboardView.update] at hupd
    exact absurd hupd.2 hne
  | Gui =>
    simp [DashboardView.update] at hupd
    exact absurd hupd.2 hne
  | QtySet f =>
    cases hf : d.balances.find? (fun b => b.asset == "USDT") with
    | none => simp [DashboardView.update, hf] at hupd
    | some b =>
      simp [DashboardView.update, hf] at hupd
      exact absurd hupd.2 hne
  | PriceInc inc =>
    cases hp : d.prices with
    | none => simp [DashboardView.update, hp] at hupd
    | some prices =>
      cases hl : prices.lookup s.textbox_pair with
      | none => simp [DashboardView.update, hp, hl] at hupd
      | some price =>
        simp [DashboardView.update, hp, hl] at hupd
        exact absurd hupd.2 hne
  | AssetSelected a => exact Or.inr ⟨a, rfl⟩
  | MarketPairSet => exact Or.inl rfl

/-- C9 (witness): the classification applied to a concrete `MarketPairSet`
update that did send commands. -/
theorem C9_witness :
    DashboardMessage.MarketPairSet = DashboardMessage.MarketPairSet
    ∨ ∃ a, DashboardMessage.MarketPairSet = DashboardMessage.AssetSelected a :=
  (C9_pair_changed_frame dashLive "ethbtc" emptyData).2.2.2
    DashboardMessage.MarketPairSet dashLive
    [⟨StreamKind.book, "btcusdt"⟩, ⟨StreamKind.trade, "btcusdt"⟩] rfl (by decide)

/-- C10: the suffix heuristic is case-sensitive: `"USDT"` is appended exactly
when the asset ends with none of the uppercase strings `"USDT"`, `"BTC"`,
`"ETH"`; `"BTC"` is kept as-is (key `"btc"` after lower-casing) while
`"btc"` becomes `"btcUSDT"` (key `"btcusdt"`). -/
theorem C10_suffix_heuristic_case_sensitive (a : String) :
    (assetPair a = a ++ "USDT"
      ↔ rendsWith a "USDT" = false ∧ rendsWith a "BTC" = false
        ∧ rendsWith a "ETH" = false)
    ∧ (assetPair a = a ∨ assetPair a = a ++ "USDT")
    ∧ assetPair "BTC" = "BTC"
    ∧ toLowercase "BTC" = "btc"
    ∧ assetPair "btc" = "btcUSDT"
    ∧ toLowercase (assetPair "btc") = "btcusdt" := by
  have hne : a ≠ a ++ "USDT" := by
    intro h
    have hlen := congrArg String.length h
    rw [String.length_append] at hlen
    have h4 : ("USDT" : String).length = 4 := rfl
    omega
  refine ⟨?_, ?_, by decide, by decide, by decide, by decide⟩
  · unfold assetPair
    cases h1 : rendsWith a "USDT" <;> cases h2 : rendsWith a "BTC" <;>
      cases h3 : rendsWith a "ETH" <;> simp [hne]
  · unfold assetPair
    split
    · exact Or.inr rfl
    · exact Or.inl rfl

/-- C10 (witness): the iff applied at the concrete asset `"xyz"`. -/
theorem C10_witness :
    rendsWith "xyz" "USDT" = false ∧ rendsWith "xyz" "BTC" = false
    ∧ rendsWith "xyz" "ETH" = false ∧ assetPair "xyz" = "xyz" ++ "USDT" :=
  ⟨rfl, rfl, rfl,
   (C10_suffix_heuristic_case_sensitive "xyz").1.mpr ⟨rfl, rfl, rfl⟩⟩
